import Mathlib

/-!
Verification development for the WiFiTimeManager library (timezone / DST / NTP
configuration and timekeeping for an ESP32 device).

The definitions below are a shallow embedding of the C++ sources:
  - `TimeChangeRule` / `TimeParameters` embed the persisted configuration struct
    (WiFiTimeManager.h).  The `char[6]` abbreviation buffers and the `char[26]`
    NTP-address buffer are modelled as `List Char`; a C string value is the
    prefix of such a buffer up to the first NUL (`cstr`).
  - 32-bit unsigned machine arithmetic is modelled on `Nat` with explicit
    reduction modulo 2^32 (`u32`, `u32sub`), and C signed/unsigned comparison
    conversions are made explicit with `Int.emod`.
  - The NVS preference store is modelled by `NvsData` (either no/short blob, or
    a full well-formed blob); `Save`/`Restore`/`Reset` mirror the corresponding
    methods of WiFiTimeManager.cpp, with the byte counts returned by
    `getBytes`/`putBytes` made explicit.
  - `GetUtcTimeT` mirrors WiFiTimeManager.cpp lines 676-707, taking the
    environment (the `millis()` reading, the value the user callback would
    return, the system-clock value) as explicit arguments and returning the
    value together with the updated state and a record of the side effects.
-/

namespace WTM

/-- 2^32, the modulus of `uint32_t` arithmetic. -/
def U32 : Nat := 4294967296

/-- Reduce a natural number to its `uint32_t` value. -/
def u32 (n : Nat) : Nat := n % U32

/-- `uint32_t` subtraction `a - b` (wrapping). -/
def u32sub (a b : Nat) : Nat := (u32 a + U32 - u32 b) % U32

/-- The NUL character terminating C strings. -/
def NUL : Char := Char.ofNat 0

/-- The C string denoted by a character buffer: its prefix up to the first NUL. -/
def cstr (buf : List Char) : List Char := buf.takeWhile (fun c => c != NUL)

/-- C `strncpy(dst, src, n)`: for indices `i < n` the destination receives
`src[i]` (NUL-padded once the source string is exhausted); bytes at indices
`≥ n` are left untouched.  `src` is the source string's character list (its
characters are NUL-free by definition of a C string). -/
def strncpy (dst src : List Char) (n : Nat) : List Char :=
  dst.enum.map (fun ic => if ic.1 < n then src.getD ic.1 NUL else ic.2)

/-- Arduino `constrain(v, lo, hi)` on `uint32_t` values. -/
def constrainU (v lo hi : Nat) : Nat := if v < lo then lo else if v > hi then hi else v

-- Constants of Timezone_Generic.hpp used by the header:
-- enum week_t {Last, First, Second, Third, Fourth};
-- enum dow_t {Sun=1, Mon, Tue, Wed, Thu, Fri, Sat};
-- enum month_t {Jan=1, Feb, ..., Dec};
def Last : Nat := 0
def First : Nat := 1
def Second : Nat := 2
def Third : Nat := 3
def Fourth : Nat := 4
def Sun : Nat := 1
def Sat : Nat := 7
def Jan : Nat := 1
def Mar : Nat := 3
def Nov : Nat := 11
def Dec : Nat := 12

-- Defaults from WiFiTimeManager.h.
def TP_VERSION : Nat := 4
def DFLT_TZ_OFST : Int := -300
def DFLT_TZ_ABBREV : List Char := "EST".toList
def DFLT_USE_DST : Bool := true
def DFLT_DST_OFST : Int := 60
def DFLT_DST_START_ABBREV : List Char := "EDT".toList
def DFLT_DST_START_WK : Nat := Second
def DFLT_DST_START_DOW : Nat := Sun
def DFLT_DST_START_MONTH : Nat := Mar
def DFLT_DST_START_HOUR : Nat := 2
def DFLT_DST_END_WK : Nat := First
def DFLT_DST_END_DOW : Nat := Sun
def DFLT_DST_END_MONTH : Nat := Nov
def DFLT_DST_END_HOUR : Nat := 2
def DFLT_NTP_ADDR : List Char := "time.nist.gov".toList
def DFLT_NTP_PORT : Nat := 123
def MAX_NTP_ADDR : Nat := 26

-- Field-domain constants of WiFiTimeManager.h (WK_MIN .. OFFSET_MID).
def WK_MIN : Nat := Last
def WK_MAX : Nat := Fourth
def DOW_MIN : Nat := Sun
def DOW_MAX : Nat := Sat
def MONTH_MIN : Nat := Jan
def MONTH_MAX : Nat := Dec
def HOUR_MIN : Nat := 0
def HOUR_MAX : Nat := 23
def OFFSET_MIN : Nat := 30
def OFFSET_MAX : Nat := 60
def OFFSET_MID : Nat := (OFFSET_MAX + OFFSET_MIN) / 2

/-- One DST transition rule (Timezone_Generic `TimeChangeRule`).
The `abbrev` field is renamed `abbr` (`abbrev` is a Lean keyword). -/
structure TimeChangeRule where
  abbr : List Char
  week : Nat
  dow : Nat
  month : Nat
  hour : Nat
  offset : Int
deriving DecidableEq, Repr

/-- The persisted configuration struct (WiFiTimeManager.h `TimeParameters`). -/
structure TimeParameters where
  m_Version : Nat
  m_TzOfst : Int
  m_UseDst : Bool
  m_DstOfst : Int
  m_NtpPort : Nat
  m_NtpAddr : List Char
  m_DstStartRule : TimeChangeRule
  m_DstEndRule : TimeChangeRule
deriving DecidableEq, Repr

/-- A buffer of six NUL characters: the value the `abbrev` fields receive from
the member-initializer list of the `TimeParameters` constructor before
`strncpy` fills them. -/
def zeroAbbrev : List Char := [NUL, NUL, NUL, NUL, NUL, NUL]

/-- The `TimeParameters` default constructor.  (The `m_NtpAddr` array is not in
the member-initializer list; it is modelled as all NUL before the `strncpy`.) -/
def defaultTimeParameters : TimeParameters :=
  { m_Version := TP_VERSION
    m_TzOfst := DFLT_TZ_OFST
    m_UseDst := DFLT_USE_DST
    m_DstOfst := DFLT_DST_OFST
    m_NtpPort := DFLT_NTP_PORT
    m_NtpAddr := strncpy (List.replicate MAX_NTP_ADDR NUL) DFLT_NTP_ADDR (MAX_NTP_ADDR - 1)
    m_DstStartRule :=
      { abbr := strncpy zeroAbbrev DFLT_DST_START_ABBREV 5
        week := DFLT_DST_START_WK
        dow := DFLT_DST_START_DOW
        month := DFLT_DST_START_MONTH
        hour := DFLT_DST_START_HOUR
        offset := DFLT_TZ_OFST + DFLT_DST_OFST }
    m_DstEndRule :=
      { abbr := strncpy zeroAbbrev DFLT_TZ_ABBREV 5
        week := DFLT_DST_END_WK
        dow := DFLT_DST_END_DOW
        month := DFLT_DST_END_MONTH
        hour := DFLT_DST_END_HOUR
        offset := DFLT_TZ_OFST } }

-- Getters (WiFiTimeManager.h): the standard abbreviation lives in the DST end
-- rule's buffer, the DST abbreviation in the DST start rule's buffer.
def GetTzOfst (p : TimeParameters) : Int := p.m_TzOfst
def GetTzAbbrev (p : TimeParameters) : List Char := p.m_DstEndRule.abbr
def GetUseDst (p : TimeParameters) : Bool := p.m_UseDst
def GetDstOfst (p : TimeParameters) : Int := p.m_DstOfst
def GetDstAbbrev (p : TimeParameters) : List Char := p.m_DstStartRule.abbr
def GetDstStartWk (p : TimeParameters) : Nat := p.m_DstStartRule.week
def GetDstStartDow (p : TimeParameters) : Nat := p.m_DstStartRule.dow
def GetDstStartMonth (p : TimeParameters) : Nat := p.m_DstStartRule.month
def GetDstStartHour (p : TimeParameters) : Nat := p.m_DstStartRule.hour
def GetDstEndWk (p : TimeParameters) : Nat := p.m_DstEndRule.week
def GetDstEndDow (p : TimeParameters) : Nat := p.m_DstEndRule.dow
def GetDstEndMonth (p : TimeParameters) : Nat := p.m_DstEndRule.month
def GetDstEndHour (p : TimeParameters) : Nat := p.m_DstEndRule.hour

-- Setters (WiFiTimeManager.h lines 558-576), acting on the embedded m_Params.
def SetTzOfst (p : TimeParameters) (v : Int) : TimeParameters :=
  { p with m_TzOfst := v }

def SetTzAbbrev (p : TimeParameters) (v : List Char) : TimeParameters :=
  { p with m_DstEndRule := { p.m_DstEndRule with abbr := strncpy p.m_DstEndRule.abbr v 5 } }

def SetUseDst (p : TimeParameters) (v : Bool) : TimeParameters :=
  { p with m_UseDst := v }

/-- 2^32 as an integer, for modelling `int32_t` → `uint32_t` conversions. -/
def U32I : Int := 4294967296

/-- `SetDstOfst(int32_t v)`: the C comparison `v <= OFFSET_MID` converts the
signed `v` to `uint32_t` (usual arithmetic conversions, `OFFSET_MID` being
`uint32_t`), modelled by `Int.emod v U32I`. -/
def SetDstOfst (p : TimeParameters) (v : Int) : TimeParameters :=
  { p with m_DstOfst :=
      if v % U32I ≤ (OFFSET_MID : Int) then (OFFSET_MIN : Int) else (OFFSET_MAX : Int) }

def SetDstAbbrev (p : TimeParameters) (v : List Char) : TimeParameters :=
  { p with m_DstStartRule := { p.m_DstStartRule with abbr := strncpy p.m_DstStartRule.abbr v 5 } }

def SetDstStartWk (p : TimeParameters) (v : Nat) : TimeParameters :=
  { p with m_DstStartRule := { p.m_DstStartRule with week := constrainU v WK_MIN WK_MAX } }

def SetDstStartDow (p : TimeParameters) (v : Nat) : TimeParameters :=
  { p with m_DstStartRule := { p.m_DstStartRule with dow := constrainU v DOW_MIN DOW_MAX } }

def SetDstStartMonth (p : TimeParameters) (v : Nat) : TimeParameters :=
  { p with m_DstStartRule := { p.m_DstStartRule with month := constrainU v MONTH_MIN MONTH_MAX } }

def SetDstStartHour (p : TimeParameters) (v : Nat) : TimeParameters :=
  { p with m_DstStartRule := { p.m_DstStartRule with hour := constrainU v HOUR_MIN HOUR_MAX } }

def SetDstStartOfst (p : TimeParameters) (v : Int) : TimeParameters :=
  { p with m_DstStartRule := { p.m_DstStartRule with offset := v } }

def SetDstEndWk (p : TimeParameters) (v : Nat) : TimeParameters :=
  { p with m_DstEndRule := { p.m_DstEndRule with week := constrainU v WK_MIN WK_MAX } }

def SetDstEndDow (p : TimeParameters) (v : Nat) : TimeParameters :=
  { p with m_DstEndRule := { p.m_DstEndRule with dow := constrainU v DOW_MIN DOW_MAX } }

def SetDstEndMonth (p : TimeParameters) (v : Nat) : TimeParameters :=
  { p with m_DstEndRule := { p.m_DstEndRule with month := constrainU v MONTH_MIN MONTH_MAX } }

def SetDstEndHour (p : TimeParameters) (v : Nat) : TimeParameters :=
  { p with m_DstEndRule := { p.m_DstEndRule with hour := constrainU v HOUR_MIN HOUR_MAX } }

def SetDstEndOfst (p : TimeParameters) (v : Int) : TimeParameters :=
  { p with m_DstEndRule := { p.m_DstEndRule with offset := v } }

/-! ## Persistence (Save / Restore / Reset, WiFiTimeManager.cpp lines 283-405) -/

/-- `sizeof(TimeParameters)`: the byte count of the persisted blob (fixed C++
layout with 4-byte alignment: version 4 + tzOfst 4 + useDst 1+3 pad + dstOfst 4
+ ntpPort 4 + ntpAddr 26 + 2 pad + two 16-byte `TimeChangeRule`s). -/
def sizeofTimeParameters : Nat := 80

/-- The blob stored in NVS under the fixed key `"All Time Data"`: either no (or
a short/partial) blob, or one full well-formed blob. -/
inductive NvsData where
  | empty : NvsData
  | full : TimeParameters → NvsData
deriving DecidableEq, Repr

/-- `prefs.getBytes(pPrefSavedStateLabel, &buf, sizeof(TimeParameters))`:
returns the byte count read together with the resulting buffer contents.  When
nothing is stored, zero bytes are read and the caller's default-constructed
`TimeParameters` buffer is left untouched. -/
def getBytesTP : NvsData → Nat × TimeParameters
  | .empty => (0, defaultTimeParameters)
  | .full p => (sizeofTimeParameters, p)

/-- Result of a `Save()` call: the returned flag, the store afterwards, and the
number of underlying `putBytes` store writes performed. -/
structure SaveResult where
  saved : Bool
  nvs : NvsData
  writes : Nat
deriving DecidableEq, Repr

/-- `WiFiTimeManager::Save()` (WiFiTimeManager.cpp lines 305-341): read back
the stored blob; skip the write when it is byte-identical to the in-memory
parameters; otherwise write the full struct and succeed exactly when the store
reports `sizeof(TimeParameters)` bytes written.  `putOk` is the environment's
answer to whether the `putBytes` write returns the full byte count; a failed
write leaves the key without a full well-formed blob. -/
def Save (params : TimeParameters) (nvs : NvsData) (putOk : Bool) : SaveResult :=
  let rd := getBytesTP nvs
  if rd.1 ≠ sizeofTimeParameters ∨ rd.2 ≠ params then
    if putOk then ⟨true, .full params, 1⟩ else ⟨false, .empty, 1⟩
  else
    ⟨true, nvs, 0⟩

/-- Result of a `Restore()` call: the returned flag and the in-memory
parameters afterwards. -/
structure RestoreResult where
  succeeded : Bool
  params : TimeParameters
deriving DecidableEq, Repr

/-- `WiFiTimeManager::Restore()` (WiFiTimeManager.cpp lines 353-377), with the
raw `getBytes` result passed in: `restored` is the byte count read and
`cachedState` the temporary buffer after the read.  The cached state is adopted
only when the full size was read and the version matches `TP_VERSION`. -/
def Restore (mParams : TimeParameters) (restored : Nat) (cachedState : TimeParameters) :
    RestoreResult :=
  if restored = sizeofTimeParameters ∧ cachedState.m_Version = TP_VERSION then
    ⟨true, cachedState⟩
  else
    ⟨false, mParams⟩

/-- The device's non-volatile storage: the WiFiManager's saved network
credentials (SSID, password) and the `"TIME DATA"` namespace blob. -/
structure DeviceNvs where
  wifiCredentials : Option (List Char × List Char)
  timeData : NvsData
deriving DecidableEq, Repr

/-- `WiFiManager::resetSettings()`: erases the saved network credentials. -/
def resetSettings (d : DeviceNvs) : DeviceNvs := { d with wifiCredentials := none }

/-- `WiFiTimeManager::ResetData()` (WiFiTimeManager.cpp lines 283-293): clears
the WiFiManager network data, then clears the whole `"TIME DATA"` namespace. -/
def ResetData (d : DeviceNvs) : DeviceNvs :=
  let d := resetSettings d
  { d with timeData := .empty }

/-- `WiFiTimeManager::Reset()` (WiFiTimeManager.cpp lines 390-405): calls
`ResetData()`, then removes the saved-state key from NVS, returning the result
of the remove (`prefs.remove` reports false when the key is absent). -/
def Reset (d : DeviceNvs) : Bool × DeviceNvs :=
  let d := ResetData d
  match d.timeData with
  | .full _ => (true, { d with timeData := .empty })
  | .empty => (false, d)

/-! ## The time source (`GetUtcTimeT`, WiFiTimeManager.cpp lines 676-707) -/

/-- The WiFiTimeManager state touched by the time-source policy. -/
structure WtmState where
  m_Params : TimeParameters
  m_MinNtpRateMs : Nat
  m_LastUpdateMs : Nat
  m_UsingNetworkTime : Bool
  hasUtcGetCallback : Bool
deriving DecidableEq, Repr

/-- The state right after the constructor (WiFiTimeManager.cpp lines 69-79):
default parameters, 60-minute minimum NTP rate, no callbacks installed. -/
def initialWtmState : WtmState :=
  { m_Params := defaultTimeParameters
    m_MinNtpRateMs := 60 * 60 * 1000
    m_LastUpdateMs := 0
    m_UsingNetworkTime := false
    hasUtcGetCallback := false }

/-- Result of a `GetUtcTimeT` call: the returned `time_t`, the updated state,
whether the user UTC-get callback was invoked, the value (if any) written to
the system clock via `settimeofday`, and the number of network time queries the
call itself emitted (the function contains no network I/O; background SNTP
sync is outside it). -/
structure UtcResult where
  timeNow : Int
  state : WtmState
  invokedGetCallback : Bool
  setSystemClock : Option Int
  ntpQueries : Nat
deriving DecidableEq, Repr

/-- `WiFiTimeManager::GetUtcTimeT(bool force)` (WiFiTimeManager.cpp lines
676-707).  Environment arguments: `millisNow` is the `millis()` reading,
`cbTime` the value the user UTC-get callback would return, `sysTime` the value
`time()` would return.  `updateTimedOut` is the `uint32_t` computation
`(millisNow - m_LastUpdateMs) >= 4 * m_MinNtpRateMs`. -/
def GetUtcTimeT (s : WtmState) (force : Bool) (millisNow : Nat) (cbTime sysTime : Int) :
    UtcResult :=
  let updateTimedOut : Bool := u32 (4 * s.m_MinNtpRateMs) ≤ u32sub millisNow s.m_LastUpdateMs
  if s.hasUtcGetCallback && (force || updateTimedOut) then
    { timeNow := cbTime
      state := { s with
        m_LastUpdateMs := u32 millisNow
        m_UsingNetworkTime := if updateTimedOut then false else s.m_UsingNetworkTime }
      invokedGetCallback := true
      setSystemClock := some cbTime
      ntpQueries := 0 }
  else
    { timeNow := sysTime
      state := { s with
        m_UsingNetworkTime := if updateTimedOut then false else s.m_UsingNetworkTime }
      invokedGetCallback := false
      setSystemClock := none
      ntpQueries := 0 }

/-- Modelled from the spec: the enforced absolute floor on the NTP update
interval, `MIN_NTP_UPDATE_MS`.  The constant is referenced by
`SetMinNtpRateSec` in WiFiTimeManager.cpp but its definition (in the current
header) is not among the provided sources; the spec gives the floor as "the
smallest configurable interval, e.g. 15 seconds", hence 15000 ms. -/
def MIN_NTP_UPDATE_MS : Nat := 15000

/-- `WiFiTimeManager::SetMinNtpRateSec(uint32_t rate)` (WiFiTimeManager.cpp
lines 919-929): stores `max(rate * 1000, MIN_NTP_UPDATE_MS)`, the
multiplication being `uint32_t` (wrapping) arithmetic. -/
def SetMinNtpRateSec (s : WtmState) (rate : Nat) : WtmState :=
  { s with m_MinNtpRateMs := max (u32 (rate * 1000)) MIN_NTP_UPDATE_MS }

/-! ## The POSIX TZ string (`GetTimezoneString`, WiFiTimeManager.cpp 424-461)

`GetTimezoneString` builds the TZ string with three `snprintf` calls.  The
embedding first computes the structured content (which abbreviations, offset
fields and transition rules appear), then renders it to the character string;
`GetTimezoneString` is the composition of the two. -/

/-- One `"%s%+01d:%01d"` section of the TZ string: an abbreviation followed by
the (sign-prefixed) hour field and the minute field. -/
structure TzOffsetPart where
  abbr : List Char
  ofstHour : Int
  ofstMin : Nat
deriving DecidableEq, Repr

/-- The two `",M%d.%d.%d/%d"` transition-rule sections of the TZ string. -/
structure TzDstRules where
  startMonth : Nat
  startWk : Nat
  startDow : Nat
  startHour : Nat
  endMonth : Nat
  endWk : Nat
  endDow : Nat
  endHour : Nat
deriving DecidableEq, Repr

/-- Structured content of the TZ string: the standard part, plus, only when DST
is observed, the DST offset part and the two transition rules. -/
structure TzStringParts where
  std : TzOffsetPart
  dst : Option (TzOffsetPart × TzDstRules)
deriving DecidableEq, Repr

/-- The structured content `GetTimezoneString` emits.  The hour field is the C
computation `0 - ofst / 60` (truncating signed division, `Int.tdiv`), the
minute field `abs(ofst) % 60`; the DST section is emitted only when
`GetUseDst()` holds, using `GetTzOfst() + GetDstOfst()` as DST offset. -/
def GetTimezoneStringParts (p : TimeParameters) : TzStringParts :=
  let std : TzOffsetPart :=
    { abbr := cstr (GetTzAbbrev p)
      ofstHour := 0 - Int.tdiv (GetTzOfst p) 60
      ofstMin := (GetTzOfst p).natAbs % 60 }
  if GetUseDst p then
    let dstOfst : Int := GetTzOfst p + GetDstOfst p
    { std := std
      dst := some
        ({ abbr := cstr (GetDstAbbrev p)
           ofstHour := 0 - Int.tdiv dstOfst 60
           ofstMin := dstOfst.natAbs % 60 },
         { startMonth := GetDstStartMonth p
           startWk := GetDstStartWk p
           startDow := GetDstStartDow p
           startHour := GetDstStartHour p
           endMonth := GetDstEndMonth p
           endWk := GetDstEndWk p
           endDow := GetDstEndDow p
           endHour := GetDstEndHour p }) }
  else
    { std := std, dst := none }

/-- `printf "%+01d"`: an explicit sign followed by the decimal digits (width 1
never pads). -/
def fmtSigned (i : Int) : List Char :=
  (if i < 0 then '-' else '+') :: Nat.toDigits 10 i.natAbs

/-- `printf "%01d"` for a non-negative value: its decimal digits. -/
def fmtNat (n : Nat) : List Char := Nat.toDigits 10 n

/-- Render one `"%s%+01d:%01d"` section. -/
def renderOffsetPart (o : TzOffsetPart) : List Char :=
  o.abbr ++ fmtSigned o.ofstHour ++ ':' :: fmtNat o.ofstMin

/-- Render one `",M%d.%d.%d/%d"` transition-rule section. -/
def renderRule (m w d h : Nat) : List Char :=
  ',' :: 'M' :: (fmtNat m ++ '.' :: (fmtNat w ++ '.' :: (fmtNat d ++ '/' :: fmtNat h)))

/-- Render the full TZ string from its structured content. -/
def renderTzString (ts : TzStringParts) : List Char :=
  renderOffsetPart ts.std ++
    match ts.dst with
    | none => []
    | some (d, r) =>
        renderOffsetPart d ++
          renderRule r.startMonth r.startWk r.startDow r.startHour ++
          renderRule r.endMonth r.endWk r.endDow r.endHour

/-- `WiFiTimeManager::GetTimezoneString` as the character string it produces
(the caller-supplied 64-byte buffer is large enough for the bounded fields, so
`snprintf` truncation never triggers). -/
def GetTimezoneString (p : TimeParameters) : List Char :=
  renderTzString (GetTimezoneStringParts p)

/-- Modelled from the spec: the POSIX TZ engine (`setenv`/`tzset`/`localtime`,
system code outside this repository) applied to the string produced by
`GetTimezoneString`.  The engine uses the DST abbreviation only when the TZ
string carries a DST part and the instant falls inside the DST range; a TZ
string with no transition rules always yields the standard abbreviation.  The
`oracle` argument models the engine's DST-range evaluation at an instant. -/
def activeAbbreviation (ts : TzStringParts) (oracle : Int → Bool) (t : Int) : List Char :=
  match ts.dst with
  | none => ts.std.abbr
  | some (d, _) => if oracle t then d.abbr else ts.std.abbr

/-- Modelled from the spec: the UTC-offset fields (hour field, minute field)
the POSIX TZ engine applies at an instant; companion of `activeAbbreviation`. -/
def activeOffsetFields (ts : TzStringParts) (oracle : Int → Bool) (t : Int) : Int × Nat :=
  match ts.dst with
  | none => (ts.std.ofstHour, ts.std.ofstMin)
  | some (d, _) => if oracle t then (d.ofstHour, d.ofstMin) else (ts.std.ofstHour, ts.std.ofstMin)

/-! ## `GetLocalTimezoneString` (WiFiTimeManager.cpp lines 808-822) -/

/-- `WiFiTimeManager::GetLocalTimezoneString()`: `pStr` starts as NULL, but
both branches of the `tm_isdst` test overwrite it with a pointer to one of the
two abbreviation buffers, so the initial NULL is dead.  `tmIsdst` is the
`tm_isdst` flag of the resolved local time; a NULL pointer result is `none`. -/
def GetLocalTimezoneString (p : TimeParameters) (tmIsdst : Bool) : Option (List Char) :=
  if tmIsdst then some (GetDstAbbrev p) else some (GetTzAbbrev p)

/-- Well-formedness of an abbreviation buffer: it is the 6-byte `char[6]` array
with its last byte NUL (established by the constructor, never overwritten by
the setters, which copy at most 5 bytes). -/
def wfAbbrev (buf : List Char) : Prop := buf.length = 6 ∧ buf.getD 5 NUL = NUL

/-- Well-formedness of the two abbreviation buffers of a parameter struct. -/
def wfParams (p : TimeParameters) : Prop :=
  wfAbbrev p.m_DstStartRule.abbr ∧ wfAbbrev p.m_DstEndRule.abbr

instance : DecidablePred wfAbbrev := fun _ => by unfold wfAbbrev; infer_instance

instance (p : TimeParameters) : Decidable (wfParams p) := by unfold wfParams; infer_instance

/-! ## Shared helper lemmas -/

theorem constrainU_mem (v lo hi : Nat) (h : lo ≤ hi) :
    lo ≤ constrainU v lo hi ∧ constrainU v lo hi ≤ hi := by
  unfold constrainU
  split
  · omega
  · split <;> omega

theorem constrainU_le_right (v lo hi : Nat) (h : lo ≤ hi) : constrainU v lo hi ≤ hi := by
  unfold constrainU
  split
  · exact h
  · split
    · exact Nat.le_refl hi
    · omega

theorem constrainU_ge_left (v lo hi : Nat) (h : lo ≤ hi) : lo ≤ constrainU v lo hi := by
  unfold constrainU
  split
  · exact Nat.le_refl lo
  · split
    · exact h
    · omega

theorem strncpy_six (d0 d1 d2 d3 d4 d5 : Char) (v : List Char) :
    strncpy [d0, d1, d2, d3, d4, d5] v 5 =
      [v.getD 0 NUL, v.getD 1 NUL, v.getD 2 NUL, v.getD 3 NUL, v.getD 4 NUL, d5] := by
  simp [strncpy, List.enum, List.enumFrom]

theorem strncpy_of_length_six (dst : List Char) (h : dst.length = 6) (v : List Char) :
    strncpy dst v 5 =
      [v.getD 0 NUL, v.getD 1 NUL, v.getD 2 NUL, v.getD 3 NUL, v.getD 4 NUL, dst.getD 5 NUL] := by
  rcases dst with _ | ⟨a, _ | ⟨b, _ | ⟨c, _ | ⟨d, _ | ⟨e, _ | ⟨f, rest⟩⟩⟩⟩⟩⟩ <;>
    simp_all [strncpy_six]

theorem cstr_pad (v : List Char) (hlen : v.length ≤ 5) (hnz : ∀ c ∈ v, c ≠ NUL) :
    cstr [v.getD 0 NUL, v.getD 1 NUL, v.getD 2 NUL, v.getD 3 NUL, v.getD 4 NUL, NUL] = v := by
  rcases v with _ | ⟨a, _ | ⟨b, _ | ⟨c, _ | ⟨d, _ | ⟨e, rest⟩⟩⟩⟩⟩ <;>
    simp_all [cstr, List.takeWhile_cons, bne_iff_ne]

theorem wfParams_default : wfParams defaultTimeParameters := by decide

theorem wfAbbrev_nul_mem (buf : List Char) (h : wfAbbrev buf) : NUL ∈ buf := by
  obtain ⟨h6, h5⟩ := h
  have hm : buf.getD 5 NUL ∈ buf := by
    rcases buf with _ | ⟨a, _ | ⟨b, _ | ⟨c, _ | ⟨d, _ | ⟨e, _ | ⟨f, rest⟩⟩⟩⟩⟩⟩ <;> simp_all
  rwa [h5] at hm

theorem wfParams_setTzAbbrev (p : TimeParameters) (v : List Char) (h : wfParams p) :
    wfParams (SetTzAbbrev p v) := by
  obtain ⟨⟨hs6, hs5⟩, ⟨he6, he5⟩⟩ := h
  refine ⟨⟨hs6, hs5⟩, ?_⟩
  simp only [SetTzAbbrev, wfAbbrev]
  rw [strncpy_of_length_six _ he6 v]
  exact ⟨rfl, he5⟩

theorem wfParams_setDstAbbrev (p : TimeParameters) (v : List Char) (h : wfParams p) :
    wfParams (SetDstAbbrev p v) := by
  obtain ⟨⟨hs6, hs5⟩, ⟨he6, he5⟩⟩ := h
  refine ⟨?_, ⟨he6, he5⟩⟩
  simp only [SetDstAbbrev, wfAbbrev]
  rw [strncpy_of_length_six _ hs6 v]
  exact ⟨rfl, hs5⟩

/-! ## Claim theorems -/

/-- C6 counterexample: the claim says `SetDstOfst` stores the nearer of
{30, 60} — 30 whenever the input is at most 45.  The input −1 is at most 45
(and numerically nearer to 30), yet the code stores 60, because the C
comparison against the unsigned `OFFSET_MID` converts −1 to 4294967295. -/
theorem setDstOfst_negative_counterexample :
    ((-1 : Int) ≤ 45) ∧ (SetDstOfst defaultTimeParameters (-1)).m_DstOfst = 60 := by
  decide

/-- C6 (amended): every rule-field setter independently clamps its argument
into the field's enumerated domain — `SetDstStartWk`/`SetDstEndWk` store a
value in [Last..Fourth], `SetDstStartDow`/`SetDstEndDow` in [Sun..Sat],
`SetDstStartMonth`/`SetDstEndMonth` in [Jan..Dec], `SetDstStartHour`/
`SetDstEndHour` in [0..23]; `SetDstOfst` stores 30 when the input is between 0
and 45 inclusive, and 60 for any other in-range `int32_t` input — in
particular negative inputs store 60, not the numerically nearer 30, because
the comparison against `OFFSET_MID` is performed in unsigned arithmetic. -/
theorem dst_setters_clamp_domains (p : TimeParameters) (v : Nat) (w : Int) :
    (Last ≤ (SetDstStartWk p v).m_DstStartRule.week ∧
      (SetDstStartWk p v).m_DstStartRule.week ≤ Fourth) ∧
    (Last ≤ (SetDstEndWk p v).m_DstEndRule.week ∧
      (SetDstEndWk p v).m_DstEndRule.week ≤ Fourth) ∧
    (Sun ≤ (SetDstStartDow p v).m_DstStartRule.dow ∧
      (SetDstStartDow p v).m_DstStartRule.dow ≤ Sat) ∧
    (Sun ≤ (SetDstEndDow p v).m_DstEndRule.dow ∧
      (SetDstEndDow p v).m_DstEndRule.dow ≤ Sat) ∧
    (Jan ≤ (SetDstStartMonth p v).m_DstStartRule.month ∧
      (SetDstStartMonth p v).m_DstStartRule.month ≤ Dec) ∧
    (Jan ≤ (SetDstEndMonth p v).m_DstEndRule.month ∧
      (SetDstEndMonth p v).m_DstEndRule.month ≤ Dec) ∧
    ((SetDstStartHour p v).m_DstStartRule.hour ≤ 23) ∧
    ((SetDstEndHour p v).m_DstEndRule.hour ≤ 23) ∧
    (0 ≤ w → w ≤ 45 → (SetDstOfst p w).m_DstOfst = 30) ∧
    (45 < w → w < 2147483648 → (SetDstOfst p w).m_DstOfst = 60) ∧
    (-2147483648 ≤ w → w < 0 → (SetDstOfst p w).m_DstOfst = 60) := by
  refine ⟨?_, ?_, ?_, ?_, ?_, ?_, ?_, ?_, ?_, ?_, ?_⟩
  · simpa only [SetDstStartWk, WK_MIN, WK_MAX] using constrainU_mem v WK_MIN WK_MAX (by decide)
  · simpa only [SetDstEndWk, WK_MIN, WK_MAX] using constrainU_mem v WK_MIN WK_MAX (by decide)
  · simpa only [SetDstStartDow, DOW_MIN, DOW_MAX] using constrainU_mem v DOW_MIN DOW_MAX (by decide)
  · simpa only [SetDstEndDow, DOW_MIN, DOW_MAX] using constrainU_mem v DOW_MIN DOW_MAX (by decide)
  · simpa only [SetDstStartMonth, MONTH_MIN, MONTH_MAX] using
      constrainU_mem v MONTH_MIN MONTH_MAX (by decide)
  · simpa only [SetDstEndMonth, MONTH_MIN, MONTH_MAX] using
      constrainU_mem v MONTH_MIN MONTH_MAX (by decide)
  · simpa only [SetDstStartHour, HOUR_MIN, HOUR_MAX] using
      (constrainU_mem v HOUR_MIN HOUR_MAX (by decide)).2
  · simpa only [SetDstEndHour, HOUR_MIN, HOUR_MAX] using
      (constrainU_mem v HOUR_MIN HOUR_MAX (by decide)).2
  · intro h0 h45
    simp only [SetDstOfst, OFFSET_MID, OFFSET_MIN, OFFSET_MAX, U32I]
    push_cast
    omega
  · intro h45 hhi
    simp only [SetDstOfst, OFFSET_MID, OFFSET_MIN, OFFSET_MAX, U32I]
    push_cast
    omega
  · intro hlo hneg
    simp only [SetDstOfst, OFFSET_MID, OFFSET_MIN, OFFSET_MAX, U32I]
    push_cast
    omega

/-- Witness for C6's amended theorem at concrete inputs: an input of 99 is
clamped, 40 stores 30, 50 and −7 store 60. -/
theorem dst_setters_clamp_domains_witness :
    (SetDstStartWk defaultTimeParameters 99).m_DstStartRule.week ≤ Fourth ∧
    (SetDstOfst defaultTimeParameters 40).m_DstOfst = 30 ∧
    (SetDstOfst defaultTimeParameters 50).m_DstOfst = 60 ∧
    (SetDstOfst defaultTimeParameters (-7)).m_DstOfst = 60 :=
  ⟨(dst_setters_clamp_domains defaultTimeParameters 99 40).1.2,
   (dst_setters_clamp_domains defaultTimeParameters 99 40).2.2.2.2.2.2.2.2.1
      (by decide) (by decide),
   (dst_setters_clamp_domains defaultTimeParameters 99 50).2.2.2.2.2.2.2.2.2.1
      (by decide) (by decide),
   (dst_setters_clamp_domains defaultTimeParameters 99 (-7)).2.2.2.2.2.2.2.2.2.2
      (by decide) (by decide)⟩

/-- C2: `Restore` succeeds if and only if the byte count read equals
`sizeof(TimeParameters)` and the stored version field equals `TP_VERSION`; on
success the cached state is adopted wholesale, and on any mismatch — in
particular a blob with version `TP_VERSION − 1` and all other bytes
well-formed — failure is reported and the in-memory parameters are left
completely unchanged. -/
theorem restore_version_gate (m cached : TimeParameters) (restored : Nat) :
    ((Restore m restored cached).succeeded = true ↔
      (restored = sizeofTimeParameters ∧ cached.m_Version = TP_VERSION)) ∧
    ((Restore m restored cached).succeeded = true →
      (Restore m restored cached).params = cached) ∧
    ((Restore m restored cached).succeeded = false →
      (Restore m restored cached).params = m) ∧
    (cached.m_Version = TP_VERSION - 1 →
      (Restore m restored cached).succeeded = false ∧
        (Restore m restored cached).params = m) := by
  unfold Restore
  split
  case isTrue h => simp_all [TP_VERSION]
  case isFalse h => simp_all

/-- Witness for C2 at concrete inputs: a full-size blob whose version is
`TP_VERSION − 1` is rejected and the in-memory parameters survive. -/
theorem restore_version_gate_witness :
    (Restore defaultTimeParameters sizeofTimeParameters
        { defaultTimeParameters with m_Version := TP_VERSION - 1 }).succeeded = false ∧
    (Restore defaultTimeParameters sizeofTimeParameters
        { defaultTimeParameters with m_Version := TP_VERSION - 1 }).params =
      defaultTimeParameters :=
  (restore_version_gate defaultTimeParameters
      { defaultTimeParameters with m_Version := TP_VERSION - 1 }
      sizeofTimeParameters).2.2.2 (by decide)

/-- C3 counterexample: the claim says two consecutive `Save` calls with no
mutation between them perform exactly one underlying store write; when the
stored blob already equals the in-memory parameters, both calls skip the
write, so zero writes are performed (and both calls still report success). -/
theorem save_exactly_one_write_counterexample :
    (Save defaultTimeParameters (.full defaultTimeParameters) true).writes +
      (Save defaultTimeParameters
        (Save defaultTimeParameters (.full defaultTimeParameters) true).nvs true).writes = 0 ∧
    (Save defaultTimeParameters (.full defaultTimeParameters) true).saved = true := by
  decide

/-- C3 (amended): `Save` first reads back the stored blob; if it is
byte-identical to the in-memory parameters, it returns success without
performing any write; otherwise it writes the full struct and returns success
exactly when the store reports the full struct size written.  Consequently two
consecutive `Save` calls with no mutation between them perform AT MOST one
underlying store write (zero when the stored blob already matches). -/
theorem save_write_skip (params : TimeParameters) (nvs : NvsData) (putOk : Bool) :
    (nvs = .full params → Save params nvs putOk = ⟨true, nvs, 0⟩) ∧
    (nvs ≠ .full params →
      (Save params nvs putOk).writes = 1 ∧
        ((Save params nvs putOk).saved = true ↔ putOk = true)) ∧
    ((Save params nvs true).writes +
      (Save params (Save params nvs true).nvs true).writes ≤ 1) := by
  refine ⟨?_, ?_, ?_⟩
  · rintro rfl
    simp [Save, getBytesTP]
  · intro hne
    cases nvs with
    | empty => cases putOk <;> simp [Save, getBytesTP, sizeofTimeParameters]
    | full q =>
        have hq : q ≠ params := fun hh => hne (by rw [hh])
        cases putOk <;> simp [Save, getBytesTP, hq]
  · cases nvs with
    | empty => simp [Save, getBytesTP, sizeofTimeParameters]
    | full q =>
        by_cases hq : q = params
        · subst hq
          simp [Save, getBytesTP]
        · simp [Save, getBytesTP, hq]

/-- Witness for C3's amended theorem at concrete inputs: a matching blob is
not rewritten; an empty store forces one (here failing) write. -/
theorem save_write_skip_witness :
    Save defaultTimeParameters (.full defaultTimeParameters) true =
      ⟨true, .full defaultTimeParameters, 0⟩ ∧
    (Save defaultTimeParameters .empty false).writes = 1 :=
  ⟨(save_write_skip defaultTimeParameters (.full defaultTimeParameters) true).1 rfl,
   ((save_write_skip defaultTimeParameters .empty false).2.1 (by decide)).1⟩

/-- C1 counterexample: with a fallback-get callback installed, `force = false`
and an elapsed time (1000 ms) below the configured minimum sync interval
(3600000 ms), the claim says the callback is invoked and its value (here 100)
returned; the code instead reads the local system clock (here 200) and never
invokes the callback. -/
theorem getUtcTimeT_fallback_counterexample :
    ({ initialWtmState with hasUtcGetCallback := true } : WtmState).hasUtcGetCallback = true ∧
    u32sub 1000 initialWtmState.m_LastUpdateMs < initialWtmState.m_MinNtpRateMs ∧
    (GetUtcTimeT { initialWtmState with hasUtcGetCallback := true }
        false 1000 100 200).invokedGetCallback = false ∧
    (GetUtcTimeT { initialWtmState with hasUtcGetCallback := true }
        false 1000 100 200).timeNow = 200 := by
  decide

/-- C1 (amended): for every `GetUtcTimeT` call with `force = false` made while
the `uint32` elapsed time since the last update is below `4 · m_MinNtpRateMs`
(in particular whenever it is below the minimum sync interval itself), the
call reads the local system clock and returns its value; the fallback-get
callback is not invoked even when one is set, the system clock is not written,
no network time query is attempted, and the state is left unchanged.
Network-connectivity plays no role in this decision. -/
theorem getUtcTimeT_rate_limit_reads_system_clock (s : WtmState)
    (millisNow : Nat) (cbTime sysTime : Int)
    (h : u32sub millisNow s.m_LastUpdateMs < u32 (4 * s.m_MinNtpRateMs)) :
    (GetUtcTimeT s false millisNow cbTime sysTime).timeNow = sysTime ∧
    (GetUtcTimeT s false millisNow cbTime sysTime).invokedGetCallback = false ∧
    (GetUtcTimeT s false millisNow cbTime sysTime).setSystemClock = none ∧
    (GetUtcTimeT s false millisNow cbTime sysTime).ntpQueries = 0 ∧
    (GetUtcTimeT s false millisNow cbTime sysTime).state = s := by
  have hb : (decide (u32 (4 * s.m_MinNtpRateMs) ≤ u32sub millisNow s.m_LastUpdateMs)) = false :=
    decide_eq_false (Nat.not_le.mpr h)
  unfold GetUtcTimeT
  simp [hb]

/-- Witness for C1's amended theorem at a concrete input: elapsed 1000 ms,
interval 3600000 ms, callback installed — the system-clock value 200 is
returned. -/
theorem getUtcTimeT_rate_limit_witness :
    (GetUtcTimeT { initialWtmState with hasUtcGetCallback := true }
        false 1000 100 200).timeNow = 200 ∧
    (GetUtcTimeT { initialWtmState with hasUtcGetCallback := true }
        false 1000 100 200).state =
      { initialWtmState with hasUtcGetCallback := true } :=
  ⟨(getUtcTimeT_rate_limit_reads_system_clock _ 1000 100 200 (by decide)).1,
   (getUtcTimeT_rate_limit_reads_system_clock _ 1000 100 200 (by decide)).2.2.2.2⟩

/-- C4: after every `GetUtcTimeT` call whose elapsed-time check fires (the
`uint32` computation `(millisNow − m_LastUpdateMs) ≥ 4 · m_MinNtpRateMs`), the
`m_UsingNetworkTime` flag is false — on every path, including the one that
runs no new sync attempt and merely reads the system clock. -/
theorem getUtcTimeT_clears_network_flag (s : WtmState) (force : Bool)
    (millisNow : Nat) (cbTime sysTime : Int)
    (h : u32 (4 * s.m_MinNtpRateMs) ≤ u32sub millisNow s.m_LastUpdateMs) :
    (GetUtcTimeT s force millisNow cbTime sysTime).state.m_UsingNetworkTime = false := by
  have hb : (decide (u32 (4 * s.m_MinNtpRateMs) ≤ u32sub millisNow s.m_LastUpdateMs)) = true :=
    decide_eq_true h
  unfold GetUtcTimeT
  simp [hb]
  split <;> simp

/-- Witness for C4 at a concrete input: a state trusting network time, with no
callback installed and 4 · interval = 14400000 ms elapsed, distrusts network
time after the call. -/
theorem getUtcTimeT_clears_network_flag_witness :
    (GetUtcTimeT { initialWtmState with m_UsingNetworkTime := true }
        false 14400000 0 0).state.m_UsingNetworkTime = false :=
  getUtcTimeT_clears_network_flag { initialWtmState with m_UsingNetworkTime := true }
    false 14400000 0 0 (by decide)

/-- C7 counterexample: the claim says for every n at or above the floor the
stored interval is exactly n seconds (n·1000 ms).  For n = 4294968 (far above
the floor) the `uint32` product 4294968·1000 wraps to 704, so the code stores
`max(704, MIN_NTP_UPDATE_MS) = 15000` ms, not 4294968000 ms. -/
theorem setMinNtpRateSec_overflow_counterexample :
    MIN_NTP_UPDATE_MS ≤ 4294968 * 1000 ∧
    (SetMinNtpRateSec initialWtmState 4294968).m_MinNtpRateMs = 15000 ∧
    (4294968 : Nat) * 1000 ≠ 15000 := by
  decide

/-- C7 (amended): `SetMinNtpRateSec` stores `max(u32(n·1000),
MIN_NTP_UPDATE_MS)`: the stored interval is never below the floor, and for
every n at or above the floor whose millisecond product n·1000 fits in
`uint32`, the stored interval is exactly n·1000 ms; the default interval
before any call is 60·60·1000 ms = 60 minutes. -/
theorem setMinNtpRateSec_clamps (s : WtmState) (n : Nat) :
    MIN_NTP_UPDATE_MS ≤ (SetMinNtpRateSec s n).m_MinNtpRateMs ∧
    (MIN_NTP_UPDATE_MS ≤ n * 1000 → n * 1000 < U32 →
      (SetMinNtpRateSec s n).m_MinNtpRateMs = n * 1000) ∧
    initialWtmState.m_MinNtpRateMs = 60 * 60 * 1000 := by
  refine ⟨Nat.le_max_right _ _, ?_, rfl⟩
  intro h1 h2
  simp only [SetMinNtpRateSec, u32]
  rw [Nat.mod_eq_of_lt h2]
  exact Nat.max_eq_left h1

/-- Witness for C7's amended theorem at a concrete input: 60 seconds stores
exactly 60000 ms. -/
theorem setMinNtpRateSec_clamps_witness :
    (SetMinNtpRateSec initialWtmState 60).m_MinNtpRateMs = 60 * 1000 :=
  (setMinNtpRateSec_clamps initialWtmState 60).2.1 (by decide) (by decide)

/-- C8: the claim (matching `Reset`'s own doc comment "WiFi credential
information is not affected") says `Reset` erases the persisted time data
while leaving the saved network credentials unchanged; but `Reset` calls
`ResetData`, which calls `resetSettings`, erasing the credentials.  Evaluated
at a device state holding credentials and saved time data: after `Reset` the
credentials are gone (the time data is erased as the claim says). -/
theorem reset_erases_wifi_credentials :
    ((Reset { wifiCredentials := some ("home".toList, "secret".toList),
              timeData := .full defaultTimeParameters }).2).wifiCredentials = none ∧
    ((Reset { wifiCredentials := some ("home".toList, "secret".toList),
              timeData := .full defaultTimeParameters }).2).timeData = .empty := by
  decide

/-- C5: when the DST-enabled flag is false, `GetTimezoneString` emits only the
single standard section — the standard abbreviation and the base-offset
fields, with no transition rules — so at every instant the engine's active
abbreviation equals the configured non-DST abbreviation and the applied
offset fields never vary from the base offset (no phantom transition). -/
theorem no_dst_no_phantom_transition (p : TimeParameters) (h : GetUseDst p = false) :
    (GetTimezoneStringParts p).dst = none ∧
    GetTimezoneString p =
      cstr (GetTzAbbrev p) ++ fmtSigned (0 - Int.tdiv (GetTzOfst p) 60) ++
        ':' :: fmtNat ((GetTzOfst p).natAbs % 60) ∧
    (∀ oracle : Int → Bool, ∀ t : Int,
      activeAbbreviation (GetTimezoneStringParts p) oracle t = cstr (GetTzAbbrev p) ∧
      activeOffsetFields (GetTimezoneStringParts p) oracle t =
        (0 - Int.tdiv (GetTzOfst p) 60, (GetTzOfst p).natAbs % 60)) := by
  have hp : GetTimezoneStringParts p =
      { std := { abbr := cstr (GetTzAbbrev p)
                 ofstHour := 0 - Int.tdiv (GetTzOfst p) 60
                 ofstMin := (GetTzOfst p).natAbs % 60 }
        dst := none } := by
    simp [GetTimezoneStringParts, h]
  refine ⟨by rw [hp], ?_, ?_⟩
  · rw [GetTimezoneString, hp]
    simp [renderTzString, renderOffsetPart]
  · intro oracle t
    rw [hp]
    exact ⟨rfl, rfl⟩

/-- Witness for C5 at a concrete state: default parameters with DST disabled
produce a TZ configuration with no DST section, and the active abbreviation
at instant 0 (under any engine decision) is the standard abbreviation. -/
theorem no_dst_no_phantom_transition_witness :
    (GetTimezoneStringParts (SetUseDst defaultTimeParameters false)).dst = none ∧
    activeAbbreviation (GetTimezoneStringParts (SetUseDst defaultTimeParameters false))
        (fun _ => true) 0 =
      cstr (GetTzAbbrev (SetUseDst defaultTimeParameters false)) :=
  ⟨(no_dst_no_phantom_transition (SetUseDst defaultTimeParameters false) (by decide)).1,
   ((no_dst_no_phantom_transition (SetUseDst defaultTimeParameters false) (by decide)).2.2
      (fun _ => true) 0).1⟩

/-- C9: `GetLocalTimezoneString` never returns NULL: for every parameter state
and `tm_isdst` flag it returns the DST abbreviation buffer when the resolved
local time is in DST and the standard abbreviation buffer otherwise; for
well-formed states (all reachable ones — the constructor establishes
`wfParams` and the abbreviation setters preserve it) the returned buffer is
NUL-terminated. -/
theorem getLocalTimezoneString_never_null (p : TimeParameters) (isdst : Bool) :
    (GetLocalTimezoneString p isdst).isSome = true ∧
    GetLocalTimezoneString p isdst =
      some (if isdst then GetDstAbbrev p else GetTzAbbrev p) ∧
    (wfParams p → ∀ buf ∈ GetLocalTimezoneString p isdst, NUL ∈ buf) := by
  refine ⟨?_, ?_, ?_⟩
  · cases isdst <;> simp [GetLocalTimezoneString]
  · cases isdst <;> simp [GetLocalTimezoneString]
  · intro hwf buf hbuf
    cases isdst with
    | false =>
        simp only [GetLocalTimezoneString, if_neg, Option.mem_def, Option.some.injEq] at hbuf
        cases hbuf
        exact wfAbbrev_nul_mem _ hwf.2
    | true =>
        simp only [GetLocalTimezoneString, if_pos, Option.mem_def, Option.some.injEq] at hbuf
        cases hbuf
        exact wfAbbrev_nul_mem _ hwf.1

/-- Witness for C9 at a concrete state: the default parameters yield the DST
abbreviation buffer, which contains a NUL terminator. -/
theorem getLocalTimezoneString_witness :
    NUL ∈ GetDstAbbrev defaultTimeParameters :=
  (getLocalTimezoneString_never_null defaultTimeParameters true).2.2 (by decide)
    (GetDstAbbrev defaultTimeParameters) (by decide)

/-- C10: for every string of at most 5 (non-NUL) characters, `SetTzAbbrev`
followed by `GetTzAbbrev` yields that same string (as the C string value of
the buffer), and likewise `SetDstAbbrev` followed by `GetDstAbbrev`; the two
pairs act on disjoint storage — the standard abbreviation lives in the DST
end rule's buffer, the DST abbreviation in the DST start rule's — so setting
one never changes the other. -/
theorem abbrev_roundtrip_disjoint (p : TimeParameters) (v : List Char)
    (hlen : v.length ≤ 5) (hnz : ∀ c ∈ v, c ≠ NUL) (hwf : wfParams p) :
    cstr (GetTzAbbrev (SetTzAbbrev p v)) = v ∧
    cstr (GetDstAbbrev (SetDstAbbrev p v)) = v ∧
    GetDstAbbrev (SetTzAbbrev p v) = GetDstAbbrev p ∧
    GetTzAbbrev (SetDstAbbrev p v) = GetTzAbbrev p := by
  obtain ⟨⟨hs6, hs5⟩, ⟨he6, he5⟩⟩ := hwf
  refine ⟨?_, ?_, rfl, rfl⟩
  · simp only [GetTzAbbrev, SetTzAbbrev]
    rw [strncpy_of_length_six _ he6 v, he5]
    exact cstr_pad v hlen hnz
  · simp only [GetDstAbbrev, SetDstAbbrev]
    rw [strncpy_of_length_six _ hs6 v, hs5]
    exact cstr_pad v hlen hnz

/-- Witness for C10 at concrete inputs: storing "CET" as the standard
abbreviation round-trips. -/
theorem abbrev_roundtrip_disjoint_witness :
    cstr (GetTzAbbrev (SetTzAbbrev defaultTimeParameters "CET".toList)) = "CET".toList ∧
    GetDstAbbrev (SetTzAbbrev defaultTimeParameters "CET".toList) =
      GetDstAbbrev defaultTimeParameters :=
  ⟨(abbrev_roundtrip_disjoint defaultTimeParameters "CET".toList
      (by decide) (by decide) (by decide)).1,
   (abbrev_roundtrip_disjoint defaultTimeParameters "CET".toList
      (by decide) (by decide) (by decide)).2.2.1⟩

end WTM
